import Mathlib

/-!
# BackLib: a CRUD service over one `Book` table

A shallow embedding of `main.go`.  The five gin handlers, the CORS middleware and the
route table are translated from the source.  The three libraries the handlers call are
modelled as far as the handlers use them:

* `encoding/json` + gin binding: `ShouldBindJSON` (decode into `Book`, then the
  `binding:"required"` check of the validator);
* gorm over SQLite: `First`, `Find`, `Create`, `Updates`, `Delete` on a table with an
  `integer PRIMARY KEY AUTOINCREMENT` column;
* gin: `Context` (request, params, response writer), `JSON`, `AbortWithStatus`.

Go's `int` and `uint` are taken at 64 bits.  Storage faults of the environment (disk
errors, a locked file) are outside the model: a storage call fails only for a reason
that the request and the table contents determine.
-/

namespace BackLib

/-! ## Data model -/

/-- Book model representing a library book (`type Book struct`). -/
structure Book where
  ID : Nat
  Title : String
  Author : String
  Genre : String
  PublishedYear : Int
  ISBN : String
  Availability : Bool
  deriving DecidableEq

/-- The zero value of `Book`, what `var book Book` declares. -/
def Book.zero : Book :=
  { ID := 0, Title := "", Author := "", Genre := "", PublishedYear := 0, ISBN := "",
    Availability := false }

/-- A JSON object read against the json tags of `Book`: for each key, the value it
carries, or `none` when the key is absent or `null`. -/
structure Payload where
  id : Option Nat
  title : Option String
  author : Option String
  genre : Option String
  published_year : Option Int
  isbn : Option String
  availability : Option Bool
  deriving DecidableEq

/-- A request body: either text that the JSON decoder rejects (bad syntax, a value of the
wrong JSON type for its key), carrying the decoder's message, or an object. -/
inductive Body where
  | malformed (err : String)
  | object (p : Payload)
  deriving DecidableEq

/-- Largest value of Go's `uint` on a 64-bit build. -/
def maxUint : Nat := 2 ^ 64 - 1

/-- Largest value of Go's `int` on a 64-bit build; also the largest SQLite rowid. -/
def maxInt : Nat := 2 ^ 63 - 1

/-- Decoding of `json.Unmarshal` into a zero `Book`: a key that is present sets its field, an
absent key leaves the zero value, a number outside the range of the field's Go type is
an error. -/
def unmarshal (p : Payload) : Except String Book :=
  if maxUint < p.id.getD 0 then
    .error ("json: cannot unmarshal number " ++ toString (p.id.getD 0) ++
      " into Go struct field Book.id of type uint")
  else if p.published_year.getD 0 < -(2 ^ 63 : Int) ∨ (maxInt : Int) < p.published_year.getD 0 then
    .error ("json: cannot unmarshal number " ++ toString (p.published_year.getD 0) ++
      " into Go struct field Book.published_year of type int")
  else
    .ok { ID := p.id.getD 0
          Title := p.title.getD ""
          Author := p.author.getD ""
          Genre := p.genre.getD ""
          PublishedYear := p.published_year.getD 0
          ISBN := p.isbn.getD ""
          Availability := p.availability.getD false }

/-- The validator's message for a field that fails its `required` tag. -/
def requiredError (field : String) : String :=
  "Key: \x27Book." ++ field ++ "\x27 Error:Field validation for \x27" ++ field ++
    "\x27 failed on the \x27required\x27 tag"

/-- The `binding:"required"` tags of `Book`: each tagged field must differ from the zero
value of its type.  The result lists the failures in field order. -/
def validate (b : Book) : List String :=
  (if b.Title = "" then [requiredError "Title"] else []) ++
  (if b.Author = "" then [requiredError "Author"] else []) ++
  (if b.Genre = "" then [requiredError "Genre"] else []) ++
  (if b.PublishedYear = 0 then [requiredError "PublishedYear"] else []) ++
  (if b.ISBN = "" then [requiredError "ISBN"] else [])

/-- Binding of gin, `c.ShouldBindJSON(&book)` for a `Book`: decode, then validate. -/
def ShouldBindJSON (body : Body) : Except String Book :=
  match body with
  | .malformed err => .error err
  | .object p =>
    match unmarshal p with
    | .error err => .error err
    | .ok b =>
      match validate b with
      | [] => .ok b
      | errs => .error ("\n".intercalate errs)

/-! ## Storage: gorm over SQLite -/

/-- The `books` table and the AUTOINCREMENT counter that SQLite keeps for it
(`sqlite_sequence`): the largest rowid an INSERT has used so far.  A row is held as the
`Book` whose `ID` is the `uint` image of its rowid (see `rowid`). -/
structure Store where
  rows : List Book
  seq : Nat
  deriving DecidableEq

/-- Errors of a storage call. -/
inductive DBError where
  | recordNotFound
  | uniqueConstraint
  | full
  | scanError
  | missingWhere
  | invalidSQL
  deriving DecidableEq

/-- Value of a non-empty run of ASCII digits; `none` for an empty run or any other
character. -/
def digitsValue (cs : List Char) : Option Nat :=
  if cs.isEmpty then none
  else cs.foldl (fun acc ch =>
    match acc with
    | none => none
    | some n => if ch.isDigit then some (n * 10 + (ch.toNat - 48)) else none) (some 0)

/-- Go's `strconv.Atoi`: an optional sign, then decimal digits, the value within `int`. -/
def Atoi (s : String) : Option Int :=
  match s.data with
  | '-' :: ds =>
    match digitsValue ds with
    | some n => if n ≤ maxInt + 1 then some (-(n : Int)) else none
    | none => none
  | '+' :: ds =>
    match digitsValue ds with
    | some n => if n ≤ maxInt then some (n : Int) else none
    | none => none
  | ds =>
    match digitsValue ds with
    | some n => if n ≤ maxInt then some (n : Int) else none
    | none => none

/-- The rowid of a row.  The driver receives a Go `uint` as `int64(id)`: an id up to
`maxInt` is its own rowid, a larger one stands for the negative rowid `id - 2^64`. -/
def rowid (b : Book) : Int :=
  if b.ID ≤ maxInt then (b.ID : Int) else Int.negSucc (maxUint - b.ID)

/-- Reading a row back into a `Book`: a negative rowid does not convert to `uint` and the
scan fails. -/
def scan (b : Book) : Except DBError Book :=
  if b.ID ≤ maxInt then .ok b else .error .scanError

/-- Insert a row into a list kept in ascending rowid order. -/
def insertByID (b : Book) : List Book → List Book
  | [] => [b]
  | x :: xs => if rowid b < rowid x then b :: x :: xs else x :: insertByID b xs

/-- The rows in ascending rowid order (`ORDER BY books.id`, and the scan order of a rowid
table). -/
def orderByID (l : List Book) : List Book :=
  l.foldr insertByID []

/-- What the SQL engine does with a condition string that gorm writes into the statement
as it stands: the row the query returns, or an error, and the table afterwards.  The
string is caller-supplied SQL, so its effect is not fixed by this program. -/
def Engine : Type := String → Store → Except DBError Book × Store

/-- The gorm call `db.First(&book, cond)` with a string condition.  A string that `strconv.Atoi`
accepts is bound as the primary-key value; an empty string adds no condition; any other
string is written into the WHERE clause as raw SQL.  The query is ordered by id and
limited to one row; no row is `ErrRecordNotFound`, and a row that does not scan into
`Book` is an error too. -/
def First (raw : Engine) (db : Store) (cond : String) : Except DBError Book × Store :=
  match Atoi cond with
  | some k =>
    match (orderByID (db.rows.filter (fun b => rowid b = k))).head? with
    | some b => (scan b, db)
    | none => (.error .recordNotFound, db)
  | none =>
    if cond = "" then
      match (orderByID db.rows).head? with
      | some b => (scan b, db)
      | none => (.error .recordNotFound, db)
    else raw cond db

/-- The gorm call `db.Find(&books)`: every row, or an error when a row does not scan. -/
def Find (db : Store) : Except DBError (List Book) :=
  if db.rows.all (fun b => b.ID ≤ maxInt) then .ok (orderByID db.rows)
  else .error .scanError

/-- The largest rowid the table has held: the counter or the largest rowid present, negative
rowids not counting. -/
def highestRowid (db : Store) : Nat :=
  max db.seq (db.rows.foldr (fun b m => if b.ID ≤ maxInt then max b.ID m else m) 0)

/-- The gorm call `db.Create(&book)`.  A zero `ID` is left out of the INSERT and SQLite assigns
the next AUTOINCREMENT rowid, which gorm writes back into `book`; a non-zero `ID` is
inserted as given and must be free.  The INSERT returns the id of the new row, so an
`ID` above `maxInt`, a negative rowid, fails on the scan of the returned id.  On an error
the transaction is rolled back and the table is as before. -/
def Create (db : Store) (book : Book) : Except DBError (Book × Store) :=
  if book.ID = 0 then
    if maxInt ≤ highestRowid db then .error .full
    else
      let b := { book with ID := highestRowid db + 1 }
      .ok (b, { rows := db.rows ++ [b], seq := highestRowid db + 1 })
  else if maxInt < book.ID then .error .scanError
  else if db.rows.any (fun r => r.ID = book.ID) then .error .uniqueConstraint
  else .ok (book, { rows := db.rows ++ [book], seq := max db.seq book.ID })

/-- The assignments `Updates` derives from a struct: every field of `upd` that is not the
zero value of its type, the primary key among them because `upd` is passed by value and
is not the model. -/
def assign (book upd : Book) : Book :=
  { ID := if upd.ID = 0 then book.ID else upd.ID
    Title := if upd.Title = "" then book.Title else upd.Title
    Author := if upd.Author = "" then book.Author else upd.Author
    Genre := if upd.Genre = "" then book.Genre else upd.Genre
    PublishedYear := if upd.PublishedYear = 0 then book.PublishedYear else upd.PublishedYear
    ISBN := if upd.ISBN = "" then book.ISBN else upd.ISBN
    Availability := if upd.Availability = false then book.Availability else true }

/-- Result of `Updates`: the model struct after the call, the table, and the error. -/
structure UpdateResult where
  model : Book
  store : Store
  err : Option DBError

/-- The gorm call `db.Model(&book).Updates(upd)` with a struct `upd`.  The non-zero fields of `upd`
are first assigned to the model in memory, then `UPDATE books SET ... WHERE id = book.ID`
runs.  With nothing to set no statement runs.  The statement fails, and changes no row,
without a WHERE condition (model id zero) or when the new id is held by another row.  A
new id above `maxInt` is written as the negative rowid it wraps to. -/
def Updates (db : Store) (book upd : Book) : UpdateResult :=
  if upd = Book.zero then { model := book, store := db, err := none }
  else if book.ID = 0 then
    { model := assign book upd, store := db, err := some .missingWhere }
  else if upd.ID ≠ 0 ∧ upd.ID ≠ book.ID ∧ db.rows.any (fun r => r.ID = book.ID) ∧
      db.rows.any (fun r => r.ID = upd.ID) then
    { model := assign book upd, store := db, err := some .uniqueConstraint }
  else
    { model := assign book upd
      store := { db with rows := db.rows.map (fun r => if r.ID = book.ID then assign r upd else r) }
      err := none }

/-- The gorm call `db.Delete(&book)`: `DELETE FROM books WHERE id = book.ID`; with a zero id there
is no condition and gorm refuses the statement. -/
def Delete (db : Store) (book : Book) : Except DBError Store :=
  if book.ID = 0 then .error .missingWhere
  else .ok { db with rows := db.rows.filter (fun r => r.ID ≠ book.ID) }

/-! ## gin context -/

/-- A response body: what a handler passes to `c.JSON` (a book, a list of books, an object
with the key `error` or `message`), or plain text written by the engine. -/
inductive Reply where
  | book (b : Book)
  | books (bs : List Book)
  | error (msg : String)
  | message (msg : String)
  | text (msg : String)
  deriving DecidableEq

/-- The part of `gin.Context` the handlers use: the request (method, the `id` path
parameter, body) and the response under construction. -/
structure Context where
  Method : String
  id : String
  Body : Body
  status : Nat
  header : List (String × String)
  written : Option Reply
  aborted : Bool
  deriving DecidableEq

/-- Response header assignment, `c.Writer.Header().Set(key, value)`. -/
def Context.Set (c : Context) (key value : String) : Context :=
  { c with header := c.header.filter (fun kv => kv.1 ≠ key) ++ [(key, value)] }

/-- Response of `c.JSON(code, obj)`: status, JSON content type unless one is set, body. -/
def Context.JSON (c : Context) (code : Nat) (obj : Reply) : Context :=
  { c with
    status := code
    header :=
      if c.header.any (fun kv => kv.1 = "Content-Type") then c.header
      else c.header ++ [("Content-Type", "application/json; charset=utf-8")]
    written := some obj }

/-- Response of `c.AbortWithStatus(code)`: the status is written with no body and the rest of
the handler chain is dropped. -/
def Context.AbortWithStatus (c : Context) (code : Nat) : Context :=
  { c with status := code, aborted := true }

/-- A handler acts on the context and the store. -/
abbrev HandlerFunc : Type := Context → Store → Context × Store

/-! ## main.go -/

/-- Middleware to handle CORS for frontend integration. -/
def setupCORS (next : HandlerFunc) : HandlerFunc := fun c db =>
  let c := c.Set "Access-Control-Allow-Origin" "*"
  let c := c.Set "Access-Control-Allow-Methods" "GET, POST, PUT, DELETE"
  let c := c.Set "Access-Control-Allow-Headers" "Content-Type"
  if c.Method = "OPTIONS" then (c.AbortWithStatus 200, db)
  else next c db

/-- Get all books. -/
def getBooks : HandlerFunc := fun c db =>
  match Find db with
  | .error _ => (c.JSON 500 (.error "Failed to retrieve books"), db)
  | .ok books => (c.JSON 200 (.books books), db)

/-- Get a book by ID. -/
def getBookByID (raw : Engine) : HandlerFunc := fun c db =>
  match First raw db c.id with
  | (.error _, db) => (c.JSON 404 (.error "Book not found"), db)
  | (.ok book, db) => (c.JSON 200 (.book book), db)

/-- Add a new book. -/
def addBook : HandlerFunc := fun c db =>
  match ShouldBindJSON c.Body with
  | .error err => (c.JSON 400 (.error err), db)
  | .ok book =>
    match Create db book with
    | .error _ => (c.JSON 500 (.error "Failed to add book"), db)
    | .ok (book, db) => (c.JSON 201 (.book book), db)

/-- Update an existing book. -/
def updateBook (raw : Engine) : HandlerFunc := fun c db =>
  match First raw db c.id with
  | (.error _, db) => (c.JSON 404 (.error "Book not found"), db)
  | (.ok book, db) =>
    match ShouldBindJSON c.Body with
    | .error err => (c.JSON 400 (.error err), db)
    | .ok updateData =>
      let r := Updates db book updateData
      (c.JSON 200 (.book r.model), r.store)

/-- Delete a book. -/
def deleteBook (raw : Engine) : HandlerFunc := fun c db =>
  match First raw db c.id with
  | (.error _, db) => (c.JSON 404 (.error "Book not found"), db)
  | (.ok book, db) =>
    match Delete db book with
    | .error _ => (c.JSON 500 (.error "Failed to delete book"), db)
    | .ok db => (c.JSON 200 (.message "Book deleted"), db)

/-- An incoming request. -/
structure Request where
  Method : String
  Path : String
  Body : Body
  deriving DecidableEq

/-- The context the engine hands to the first handler of a chain. -/
def newContext (req : Request) (id : String) : Context :=
  { Method := req.Method, id := id, Body := req.Body, status := 200, header := [],
    written := none, aborted := false }

/-- The `:id` segment of a path `/books/:id`: what follows `/books/`, when it is non-empty and
holds no further slash. -/
def idParam (path : String) : Option String :=
  if "/books/".data.isPrefixOf path.data then
    let rest := path.data.drop 7
    if rest ≠ [] ∧ ¬ rest.contains '/' then some (String.mk rest) else none
  else none

/-- The API routes registered in `main`: the handler and the `id` parameter for a method and
path, `none` when no route matches. -/
def route (raw : Engine) (method path : String) : Option (HandlerFunc × String) :=
  if path = "/books" then
    if method = "GET" then some (getBooks, "")
    else if method = "POST" then some (addBook, "")
    else none
  else
    match idParam path with
    | some id =>
      if method = "GET" then some (getBookByID raw, id)
      else if method = "PUT" then some (updateBook raw, id)
      else if method = "DELETE" then some (deleteBook raw, id)
      else none
    | none => none

/-- The end of the chain for a request no route matches: the engine answers 404 with its
default plain-text body. -/
def noRoute : HandlerFunc := fun c db =>
  ({ c.Set "Content-Type" "text/plain" with
      status := 404, written := some (.text "404 page not found") }, db)

/-- The server `main` starts: `r.Use(setupCORS())` puts the middleware in front of every
route handler and of the not-found chain.  A method with no registered route
has no routing tree, so its requests go to the not-found chain.  For a method with routes,
a path that matches none is answered inside the router (a redirect or the not-found
chain); `unrouted` stands for that answer.  The logger and the recovery middleware of
`gin.Default` write no part of the response and are left out. -/
def serve (raw : Engine) (unrouted : Request → Store → Context × Store) (req : Request)
    (db : Store) : Context × Store :=
  if req.Method ∈ ["GET", "POST", "PUT", "DELETE"] then
    match route raw req.Method req.Path with
    | some (h, id) => setupCORS h (newContext req id) db
    | none => unrouted req db
  else setupCORS noRoute (newContext req "") db



/-! ## Sample requests and tables -/

/-- An engine that rejects every raw condition as invalid SQL. -/
def rejectRaw : Engine := fun _ db => (.error .invalidSQL, db)

/-- An engine in which the raw condition `1=1` holds of every row, so that the query returns
the row of least id, and every other raw condition is rejected. -/
def tautologyRaw : Engine := fun cond db =>
  if cond = "1=1" then
    match (orderByID db.rows).head? with
    | some b => (scan b, db)
    | none => (.error .recordNotFound, db)
  else (.error .invalidSQL, db)

/-- A create body with the five required keys and neither id nor availability. -/
def dunePayload : Payload :=
  { id := none, title := some "Dune", author := some "Herbert", genre := some "SciFi",
    published_year := some 1965, isbn := some "123", availability := none }

/-- The row that creating `dunePayload` in an empty table stores. -/
def dune : Book :=
  { ID := 1, Title := "Dune", Author := "Herbert", Genre := "SciFi", PublishedYear := 1965,
    ISBN := "123", Availability := false }

/-- A second row, available, sharing the isbn of `dune`. -/
def emma : Book :=
  { ID := 2, Title := "Emma", Author := "Austen", Genre := "Novel", PublishedYear := 1815,
    ISBN := "123", Availability := true }

/-- An empty table. -/
def emptyStore : Store := { rows := [], seq := 0 }

/-- A table holding `dune` alone. -/
def oneStore : Store := { rows := [dune], seq := 1 }

/-- A table holding `dune` and `emma`. -/
def twoStore : Store := { rows := [dune, emma], seq := 2 }

/-- A context for a request with the given method, `id` parameter and body. -/
def request (method id : String) (body : Body) : Context :=
  newContext { Method := method, Path := "", Body := body } id

/-- A body that carries `availability` alone. -/
def availabilityOnly : Payload :=
  { id := none, title := none, author := none, genre := none, published_year := none,
    isbn := none, availability := some true }

/-- A full update body that also carries an id. -/
def retitled (id : Nat) : Payload :=
  { id := some id, title := some "Dune Messiah", author := some "Herbert", genre := some "SciFi",
    published_year := some 1969, isbn := some "456", availability := none }

/-- The row `dune` after `retitled` is applied to it, under the given id. -/
def messiah (id : Nat) : Book :=
  { ID := id, Title := "Dune Messiah", Author := "Herbert", Genre := "SciFi",
    PublishedYear := 1969, ISBN := "456", Availability := false }

theorem validate_eq_nil (b : Book) :
    validate b = [] ↔
      b.Title ≠ "" ∧ b.Author ≠ "" ∧ b.Genre ≠ "" ∧ b.PublishedYear ≠ 0 ∧ b.ISBN ≠ "" := by
  unfold validate
  split_ifs <;> simp_all

theorem unmarshal_ok (p : Payload) (b : Book) (h : unmarshal p = .ok b) :
    b.ID = p.id.getD 0 ∧ b.Title = p.title.getD "" ∧ b.Author = p.author.getD "" ∧
      b.Genre = p.genre.getD "" ∧ b.PublishedYear = p.published_year.getD 0 ∧
      b.ISBN = p.isbn.getD "" ∧ b.Availability = p.availability.getD false ∧
      b.ID ≤ maxUint := by
  unfold unmarshal at h
  split_ifs at h with h1 h2
  cases h
  simp only [not_lt] at h1
  exact ⟨rfl, rfl, rfl, rfl, rfl, rfl, rfl, h1⟩

theorem ShouldBindJSON_ok (body : Body) (b : Book) (h : ShouldBindJSON body = .ok b) :
    ∃ p, body = .object p ∧ unmarshal p = .ok b ∧ validate b = [] := by
  unfold ShouldBindJSON at h
  split at h
  · cases h
  · rename_i p
    split at h
    · cases h
    · rename_i b' hb'
      split at h
      · cases h
        exact ⟨p, rfl, hb', by assumption⟩
      · cases h

theorem getD_ne_iff {α : Type} (o : Option α) (d : α) (x : α) (hx : x ≠ d) :
    o.getD d = x ↔ o = some x := by
  cases o <;> simp [Ne.symm hx]

/-- A body binds to `b` only when each required key is present with the non-zero value
that `b` holds. -/
theorem ShouldBindJSON_object (p : Payload) (b : Book) (h : ShouldBindJSON (.object p) = .ok b) :
    (p.title = some b.Title ∧ b.Title ≠ "") ∧ (p.author = some b.Author ∧ b.Author ≠ "") ∧
      (p.genre = some b.Genre ∧ b.Genre ≠ "") ∧
      (p.published_year = some b.PublishedYear ∧ b.PublishedYear ≠ 0) ∧
      (p.isbn = some b.ISBN ∧ b.ISBN ≠ "") ∧ b.Availability = p.availability.getD false ∧
      b.ID = p.id.getD 0 := by
  obtain ⟨q, hq, hu, hv⟩ := ShouldBindJSON_ok _ _ h
  cases hq
  obtain ⟨h0, h1, h2, h3, h4, h5, h6, -⟩ := unmarshal_ok _ _ hu
  obtain ⟨v1, v2, v3, v4, v5⟩ := (validate_eq_nil b).1 hv
  refine ⟨⟨?_, v1⟩, ⟨?_, v2⟩, ⟨?_, v3⟩, ⟨?_, v4⟩, ⟨?_, v5⟩, h6, h0⟩
  · exact (getD_ne_iff _ _ _ v1).1 h1.symm
  · exact (getD_ne_iff _ _ _ v2).1 h2.symm
  · exact (getD_ne_iff _ _ _ v3).1 h3.symm
  · exact (getD_ne_iff _ _ _ v4).1 h4.symm
  · exact (getD_ne_iff _ _ _ v5).1 h5.symm

/-- A body that lacks a required key, or carries its zero value, does not bind. -/
theorem ShouldBindJSON_missing (p : Payload)
    (h : p.title = none ∨ p.title = some "" ∨ p.author = none ∨ p.author = some "" ∨
      p.genre = none ∨ p.genre = some "" ∨ p.published_year = none ∨
      p.published_year = some 0 ∨ p.isbn = none ∨ p.isbn = some "") :
    ∃ err, ShouldBindJSON (.object p) = .error err := by
  cases hb : ShouldBindJSON (.object p) with
  | error e => exact ⟨e, rfl⟩
  | ok b =>
    exfalso
    obtain ⟨⟨t1, t2⟩, ⟨a1, a2⟩, ⟨g1, g2⟩, ⟨y1, y2⟩, ⟨i1, i2⟩, -, -⟩ := ShouldBindJSON_object p b hb
    rcases h with h | h | h | h | h | h | h | h | h | h
    all_goals simp_all

/-- C1. A create body in which one of title, author, genre, published_year, isbn is absent
or zero-valued is answered 400 with an error message, and the store is left as it was. -/
theorem addBook_missing_required_field (c : Context) (db : Store) (p : Payload)
    (hbody : c.Body = .object p)
    (h : p.title = none ∨ p.title = some "" ∨ p.author = none ∨ p.author = some "" ∨
      p.genre = none ∨ p.genre = some "" ∨ p.published_year = none ∨
      p.published_year = some 0 ∨ p.isbn = none ∨ p.isbn = some "") :
    (addBook c db).1.status = 400 ∧ (∃ err, (addBook c db).1.written = some (.error err)) ∧
      (addBook c db).2 = db ∧ (getBooks c (addBook c db).2).1 = (getBooks c db).1 := by
  obtain ⟨err, he⟩ := ShouldBindJSON_missing p h
  have : addBook c db = (c.JSON 400 (.error err), db) := by
    simp only [addBook, hbody, he]
  rw [this]
  exact ⟨rfl, ⟨err, rfl⟩, rfl, rfl⟩


/-! ## Lookup by primary key -/

theorem mem_insertByID (b x : Book) (l : List Book) :
    x ∈ insertByID b l ↔ x = b ∨ x ∈ l := by
  induction l with
  | nil => simp [insertByID]
  | cons y ys ih =>
    simp only [insertByID]
    split_ifs
    · simp
    · simp only [List.mem_cons, ih]
      tauto

theorem mem_orderByID (x : Book) (l : List Book) : x ∈ orderByID l ↔ x ∈ l := by
  induction l with
  | nil => simp [orderByID]
  | cons y ys ih =>
    have : orderByID (y :: ys) = insertByID y (orderByID ys) := rfl
    rw [this, mem_insertByID, ih, List.mem_cons]

theorem head?_orderByID_none (l : List Book) (h : (orderByID l).head? = none) : l = [] := by
  cases l with
  | nil => rfl
  | cons y ys =>
    exfalso
    have hy : y ∈ orderByID (y :: ys) := (mem_orderByID _ _).2 (List.mem_cons_self _ _)
    cases hl : orderByID (y :: ys) with
    | nil => rw [hl] at hy; cases hy
    | cons z zs => rw [hl] at h; cases h

theorem head?_orderByID_mem (l : List Book) (x : Book) (h : (orderByID l).head? = some x) :
    x ∈ l := by
  apply (mem_orderByID x l).1
  cases hl : orderByID l with
  | nil => rw [hl] at h; cases h
  | cons z zs =>
    rw [hl] at h
    cases h
    exact List.mem_cons_self _ _

/-- A string that `strconv.Atoi` accepts denotes a value within `int`. -/
theorem Atoi_le (s : String) (k : Int) (h : Atoi s = some k) : k ≤ (maxInt : Int) := by
  unfold Atoi at h
  split at h
  all_goals
    split at h
    · split_ifs at h with hn
      simp only [Option.some.injEq] at h
      omega
    · cases h

theorem rowid_of_le (b : Book) (h : b.ID ≤ maxInt) : rowid b = (b.ID : Int) := by
  simp [rowid, h]

/-- A row of non-negative rowid holds that rowid as its id and scans. -/
theorem rowid_nonneg (b : Book) (k : Int) (h : rowid b = k) (hk : 0 ≤ k) :
    b.ID ≤ maxInt ∧ (b.ID : Int) = k := by
  unfold rowid at h
  split_ifs at h with hb
  · exact ⟨hb, h⟩
  · exfalso
    have := Int.negSucc_lt_zero (maxUint - b.ID)
    omega

/-- A numeric path parameter that is no row id: the lookup fails and the table is as
before. -/
theorem First_key_absent (raw : Engine) (db : Store) (s : String) (k : Int)
    (hk : Atoi s = some k) (h : ∀ b ∈ db.rows, (b.ID : Int) ≠ k) :
    ∃ e, First raw db s = (.error e, db) := by
  cases hh : (orderByID (db.rows.filter (fun b => rowid b = k))).head? with
  | none => exact ⟨.recordNotFound, by simp only [First, hk, hh]⟩
  | some b =>
    have hb := head?_orderByID_mem _ _ hh
    rw [List.mem_filter] at hb
    have hrow : rowid b = k := by simpa using hb.2
    have hbig : ¬ b.ID ≤ maxInt := by
      intro hle
      apply h b hb.1
      rw [← hrow, rowid_of_le b hle]
    exact ⟨.scanError, by simp only [First, hk, hh, scan, if_neg hbig]⟩

/-- A numeric path parameter yields either an error or a stored row with that id; the
lookup never changes the table. -/
theorem First_key_cases (raw : Engine) (db : Store) (s : String) (k : Int)
    (hk : Atoi s = some k) :
    (∃ e, First raw db s = (.error e, db)) ∨
      ∃ b, b ∈ db.rows ∧ (b.ID : Int) = k ∧ First raw db s = (.ok b, db) := by
  cases hh : (orderByID (db.rows.filter (fun b => rowid b = k))).head? with
  | none => exact Or.inl ⟨.recordNotFound, by simp only [First, hk, hh]⟩
  | some b =>
    have hb := head?_orderByID_mem _ _ hh
    rw [List.mem_filter] at hb
    have hrow : rowid b = k := by simpa using hb.2
    by_cases hle : b.ID ≤ maxInt
    · right
      refine ⟨b, hb.1, ?_, by simp only [First, hk, hh, scan, if_pos hle]⟩
      rw [← hrow, rowid_of_le b hle]
    · exact Or.inl ⟨.scanError, by simp only [First, hk, hh, scan, if_neg hle]⟩

/-- A numeric path parameter that is the id of a stored row yields a stored row of that
id. -/
theorem First_key_found (raw : Engine) (db : Store) (s : String) (k : Int) (b : Book)
    (hk : Atoi s = some k) (hb : b ∈ db.rows) (hid : (b.ID : Int) = k) :
    ∃ r, r ∈ db.rows ∧ (r.ID : Int) = k ∧ First raw db s = (.ok r, db) := by
  have hkle := Atoi_le s k hk
  have hble : b.ID ≤ maxInt := by omega
  have hk0 : 0 ≤ k := by omega
  cases hh : (orderByID (db.rows.filter (fun b => rowid b = k))).head? with
  | none =>
    exfalso
    have := head?_orderByID_none _ hh
    rw [List.filter_eq_nil_iff] at this
    apply this b hb
    simp [rowid_of_le b hble, hid]
  | some r =>
    have hr := head?_orderByID_mem _ _ hh
    rw [List.mem_filter] at hr
    have hrow : rowid r = k := by simpa using hr.2
    obtain ⟨hrle, hrk⟩ := rowid_nonneg r k hrow hk0
    exact ⟨r, hr.1, hrk, by simp only [First, hk, hh, scan, if_pos hrle]⟩

/-- A numeric path parameter that is the id of exactly one stored row yields that row. -/
theorem First_key_present (raw : Engine) (db : Store) (s : String) (k : Int) (b : Book)
    (hk : Atoi s = some k) (hb : b ∈ db.rows) (hid : (b.ID : Int) = k)
    (huniq : ∀ r ∈ db.rows, r.ID = b.ID → r = b) :
    First raw db s = (.ok b, db) := by
  obtain ⟨r, hr, hrk, h⟩ := First_key_found raw db s k b hk hb hid
  have : r.ID = b.ID := by exact_mod_cast hrk.trans hid.symm
  rw [h, huniq r hr this]

theorem unique_of_nodup (rows : List Book) (h : (rows.map Book.ID).Nodup) (b : Book)
    (hb : b ∈ rows) : ∀ r ∈ rows, r.ID = b.ID → r = b :=
  fun _ hr e => List.inj_on_of_nodup_map h hr hb e

/-! ## Create -/

theorem le_foldr_max_ID (rows : List Book) (r : Book) (hr : r ∈ rows) (hle : r.ID ≤ maxInt) :
    r.ID ≤ rows.foldr (fun b m => if b.ID ≤ maxInt then max b.ID m else m) 0 := by
  induction rows with
  | nil => cases hr
  | cons x xs ih =>
    simp only [List.foldr_cons]
    rcases List.mem_cons.1 hr with h | h
    · subst h
      rw [if_pos hle]
      exact le_max_left _ _
    · split_ifs
      · exact le_trans (ih h) (le_max_right _ _)
      · exact ih h

theorem le_highestRowid (db : Store) (r : Book) (hr : r ∈ db.rows) (hle : r.ID ≤ maxInt) :
    r.ID ≤ highestRowid db :=
  le_trans (le_foldr_max_ID db.rows r hr hle) (le_max_right _ _)

/-- A successful `Create` appends exactly the returned row; its id is non-zero, within the
rowid range, held by no earlier row, and the one asked for when one was asked for; the
other fields are those passed in. -/
theorem Create_ok (db db' : Store) (book b : Book) (h : Create db book = .ok (b, db')) :
    db'.rows = db.rows ++ [b] ∧ (∀ r ∈ db.rows, r.ID ≠ b.ID) ∧ b.ID ≠ 0 ∧ b.ID ≤ maxInt ∧
      b = { book with ID := b.ID } ∧ (book.ID ≠ 0 → b.ID = book.ID) := by
  unfold Create at h
  split_ifs at h with h0 h1 h2 h3
  · simp only [Except.ok.injEq, Prod.mk.injEq] at h
    obtain ⟨hb, hdb⟩ := h
    subst hb hdb
    refine ⟨rfl, ?_, by simp, ?_, rfl, fun hne => absurd h0 hne⟩
    · intro r hr
      simp only [ne_eq]
      by_cases hle : r.ID ≤ maxInt
      · have := le_highestRowid db r hr hle
        omega
      · omega
    · simp only
      omega
  · simp only [Except.ok.injEq, Prod.mk.injEq] at h
    obtain ⟨hb, hdb⟩ := h
    subst hb hdb
    refine ⟨rfl, ?_, h0, by omega, rfl, fun _ => rfl⟩
    intro r hr
    simp only [List.any_eq_true, decide_eq_true_eq, not_exists, not_and] at h3
    exact h3 r hr

/-- A 201 answer of `addBook` comes from a body that bound and a `Create` that succeeded. -/
theorem addBook_created (c : Context) (db : Store) (h : (addBook c db).1.status = 201) :
    ∃ book b db', ShouldBindJSON c.Body = .ok book ∧ Create db book = .ok (b, db') ∧
      addBook c db = (c.JSON 201 (.book b), db') := by
  cases hb : ShouldBindJSON c.Body with
  | error e => simp [addBook, hb, Context.JSON] at h
  | ok book =>
    cases hc : Create db book with
    | error e => simp [addBook, hb, hc, Context.JSON] at h
    | ok r =>
      obtain ⟨b, db'⟩ := r
      exact ⟨book, b, db', rfl, hc, by simp [addBook, hb, hc]⟩

/-- C2. When `addBook` answers 201 with book `b` for a body `P`, fetching `b.ID` in the
resulting store answers 200 with `b`, and the title, author, genre, published_year and isbn
of `b` are those that `P` supplies, its availability that of `P`, or false when `P` omits it. -/
theorem create_then_get (raw : Engine) (c g : Context) (db : Store) (p : Payload) (b : Book)
    (hbody : c.Body = .object p)
    (hstatus : (addBook c db).1.status = 201)
    (hresp : (addBook c db).1.written = some (.book b))
    (hid : Atoi g.id = some (b.ID : Int)) :
    (getBookByID raw g (addBook c db).2).1.status = 200 ∧
      (getBookByID raw g (addBook c db).2).1.written = some (.book b) ∧
      p.title = some b.Title ∧ p.author = some b.Author ∧ p.genre = some b.Genre ∧
      p.published_year = some b.PublishedYear ∧ p.isbn = some b.ISBN ∧
      b.Availability = p.availability.getD false := by
  obtain ⟨book, b', db', hbind, hcreate, hadd⟩ := addBook_created c db hstatus
  rw [hadd] at hresp ⊢
  simp only [Context.JSON, Option.some.injEq, Reply.book.injEq] at hresp
  subst hresp
  rw [hbody] at hbind
  obtain ⟨⟨t, -⟩, ⟨a, -⟩, ⟨ge, -⟩, ⟨y, -⟩, ⟨i, -⟩, av, -⟩ := ShouldBindJSON_object p book hbind
  obtain ⟨hrows, hfresh, -, -, hb, -⟩ := Create_ok db db' book b' hcreate
  have hfirst : First raw db' g.id = (.ok b', db') := by
    apply First_key_present raw db' g.id _ b' hid _ rfl
    · intro r hr hrid
      rw [hrows, List.mem_append, List.mem_singleton] at hr
      rcases hr with hr | hr
      · exact absurd hrid (hfresh r hr)
      · exact hr
    · rw [hrows]
      simp
  have hfields : b'.Title = book.Title ∧ b'.Author = book.Author ∧ b'.Genre = book.Genre ∧
      b'.PublishedYear = book.PublishedYear ∧ b'.ISBN = book.ISBN ∧
      b'.Availability = book.Availability := by
    rw [hb]
    exact ⟨rfl, rfl, rfl, rfl, rfl, rfl⟩
  obtain ⟨f1, f2, f3, f4, f5, f6⟩ := hfields
  refine ⟨?_, ?_, ?_, ?_, ?_, ?_, ?_, ?_⟩
  · simp [getBookByID, hfirst, Context.JSON]
  · simp [getBookByID, hfirst, Context.JSON]
  · rw [f1]; exact t
  · rw [f2]; exact a
  · rw [f3]; exact ge
  · rw [f4]; exact y
  · rw [f5]; exact i
  · rw [f6]; exact av

/-- Instance of `addBook_missing_required_field`: a body with availability alone. -/
theorem addBook_missing_required_field_witness :
    (addBook (request "POST" "" (.object availabilityOnly)) oneStore).1.status = 400 ∧
      (addBook (request "POST" "" (.object availabilityOnly)) oneStore).2 = oneStore :=
  have h := addBook_missing_required_field (request "POST" "" (.object availabilityOnly))
    oneStore availabilityOnly rfl (Or.inl rfl)
  ⟨h.1, h.2.2.1⟩

/-- Instance of `create_then_get`: the first book created in an empty table. -/
theorem create_then_get_witness :
    (getBookByID rejectRaw (request "GET" "1" (.malformed "EOF"))
        (addBook (request "POST" "" (.object dunePayload)) emptyStore).2).1.written =
      some (.book dune) :=
  (create_then_get rejectRaw (request "POST" "" (.object dunePayload))
    (request "GET" "1" (.malformed "EOF")) emptyStore dunePayload dune rfl (by decide)
    (by decide) (by decide)).2.1

theorem getBookByID_not_found (raw : Engine) (c : Context) (db db1 : Store) (e : DBError)
    (h : First raw db c.id = (.error e, db1)) :
    getBookByID raw c db = (c.JSON 404 (.error "Book not found"), db1) := by
  simp only [getBookByID, h]

theorem getBookByID_found (raw : Engine) (c : Context) (db db1 : Store) (b : Book)
    (h : First raw db c.id = (.ok b, db1)) :
    getBookByID raw c db = (c.JSON 200 (.book b), db1) := by
  simp only [getBookByID, h]

theorem deleteBook_not_found (raw : Engine) (c : Context) (db db1 : Store) (e : DBError)
    (h : First raw db c.id = (.error e, db1)) :
    deleteBook raw c db = (c.JSON 404 (.error "Book not found"), db1) := by
  simp only [deleteBook, h]

theorem updateBook_not_found (raw : Engine) (c : Context) (db db1 : Store) (e : DBError)
    (h : First raw db c.id = (.error e, db1)) :
    updateBook raw c db = (c.JSON 404 (.error "Book not found"), db1) := by
  simp only [updateBook, h]

theorem updateBook_bad_body (raw : Engine) (c : Context) (db db1 : Store) (b : Book)
    (err : String) (h : First raw db c.id = (.ok b, db1))
    (hb : ShouldBindJSON c.Body = .error err) :
    updateBook raw c db = (c.JSON 400 (.error err), db1) := by
  simp only [updateBook, h, hb]

theorem updateBook_applied (raw : Engine) (c : Context) (db db1 : Store) (b u : Book)
    (h : First raw db c.id = (.ok b, db1)) (hb : ShouldBindJSON c.Body = .ok u) :
    updateBook raw c db = (c.JSON 200 (.book (Updates db1 b u).model), (Updates db1 b u).store) := by
  simp only [updateBook, h, hb]

/-! ## Delete -/

/-- A 200 answer of `deleteBook` comes from a lookup that found a row of non-zero id, and
leaves the table without the rows of that id. -/
theorem deleteBook_ok (raw : Engine) (c : Context) (db : Store)
    (h : (deleteBook raw c db).1.status = 200) :
    ∃ b db1, First raw db c.id = (.ok b, db1) ∧ b.ID ≠ 0 ∧
      deleteBook raw c db =
        (c.JSON 200 (.message "Book deleted"),
          { db1 with rows := db1.rows.filter (fun r => r.ID ≠ b.ID) }) := by
  rcases hf : First raw db c.id with ⟨res, db1⟩
  cases res with
  | error e => simp [deleteBook, hf, Context.JSON] at h
  | ok b =>
    by_cases hz : b.ID = 0
    · simp [deleteBook, hf, Delete, hz, Context.JSON] at h
    · exact ⟨b, db1, rfl, hz, by simp [deleteBook, hf, Delete, hz]⟩

/-- C4. For a numeric id: `deleteBook` answers 200 when a book of that (non-zero) id is
stored; and whenever it answers 200 the body is the message "Book deleted", a following
`getBookByID` and a second `deleteBook` on that id answer 404, and the store is the old one
without the rows of that id, every other row and the id counter being as before. -/
theorem delete_then_gone (raw : Engine) (c g d : Context) (db : Store) (k : Int)
    (hc : Atoi c.id = some k) (hg : g.id = c.id) (hd : d.id = c.id) :
    ((∃ b ∈ db.rows, (b.ID : Int) = k) → k ≠ 0 → (deleteBook raw c db).1.status = 200) ∧
    ((deleteBook raw c db).1.status = 200 →
      (deleteBook raw c db).1.written = some (.message "Book deleted") ∧
      (getBookByID raw g (deleteBook raw c db).2).1.status = 404 ∧
      (getBookByID raw g (deleteBook raw c db).2).1.written = some (.error "Book not found") ∧
      (deleteBook raw d (deleteBook raw c db).2).1.status = 404 ∧
      (deleteBook raw c db).2.rows = db.rows.filter (fun r => (r.ID : Int) ≠ k) ∧
      (deleteBook raw c db).2.seq = db.seq) := by
  constructor
  · rintro ⟨b, hb, hbk⟩ hk
    obtain ⟨r, hr, hrk, h⟩ := First_key_found raw db c.id k b hc hb hbk
    have hz : r.ID ≠ 0 := by
      intro h0
      apply hk
      rw [← hrk, h0]
      rfl
    simp [deleteBook, h, Delete, hz, Context.JSON]
  · intro hs
    obtain ⟨b, db1, hf, hz, hdel⟩ := deleteBook_ok raw c db hs
    rcases First_key_cases raw db c.id k hc with ⟨e, h⟩ | ⟨r, hr, hrk, h⟩
    · rw [h] at hf
      cases hf
    · rw [h] at hf
      simp only [Prod.mk.injEq, Except.ok.injEq] at hf
      obtain ⟨hrb, hdb⟩ := hf
      subst hrb hdb
      rw [hdel]
      have hgone : ∀ x ∈ ({ db with rows := db.rows.filter (fun x => x.ID ≠ r.ID) } : Store).rows,
          (x.ID : Int) ≠ k := by
        intro x hx
        simp only [List.mem_filter, decide_eq_true_eq] at hx
        intro hxk
        apply hx.2
        exact_mod_cast hxk.trans hrk.symm
      obtain ⟨eg, hget⟩ := First_key_absent raw _ g.id k (hg ▸ hc) hgone
      obtain ⟨ed, hdel2⟩ := First_key_absent raw _ d.id k (hd ▸ hc) hgone
      refine ⟨rfl, ?_, ?_, ?_, ?_, rfl⟩
      · rw [getBookByID_not_found raw g _ _ _ hget]
        rfl
      · rw [getBookByID_not_found raw g _ _ _ hget]
        rfl
      · rw [deleteBook_not_found raw d _ _ _ hdel2]
        rfl
      · apply List.filter_congr
        intro x _
        have : (x.ID = r.ID) ↔ ((x.ID : Int) = k) := by
          rw [← hrk]
          exact Nat.cast_inj.symm
        simp [this]

/-- Instance of `delete_then_gone`: deleting book 1 of two. -/
theorem delete_then_gone_witness :
    (deleteBook rejectRaw (request "DELETE" "1" (.malformed "EOF")) twoStore).1.status = 200 ∧
      (deleteBook rejectRaw (request "DELETE" "1" (.malformed "EOF")) twoStore).2.rows = [emma] :=
  have h := delete_then_gone rejectRaw (request "DELETE" "1" (.malformed "EOF"))
    (request "GET" "1" (.malformed "EOF")) (request "DELETE" "1" (.malformed "EOF")) twoStore 1
    (by decide) rfl rfl
  ⟨h.1 ⟨dune, by decide, by decide⟩ (by decide),
    (h.2 (h.1 ⟨dune, by decide, by decide⟩ (by decide))).2.2.2.2.1.trans (by decide)⟩

/-! ## Update: binding and lookup failures -/

/-- The binding of `updateBook` is that of `addBook`.  For a numeric id of a stored book, a
body in which one of title, author, genre, published_year, isbn is absent or zero-valued is
answered 400 and the store is unchanged; for a numeric id of no stored book the answer is 404
whatever the body is, the store unchanged; and whenever the answer is 200 the body is an
object in which all five keys are present and non-zero. -/
theorem updateBook_required_binding (raw : Engine) (c : Context) (db : Store) :
    (∀ (k : Int) (p : Payload), Atoi c.id = some k → (∃ b ∈ db.rows, (b.ID : Int) = k) →
        c.Body = .object p →
        (p.title = none ∨ p.title = some "" ∨ p.author = none ∨ p.author = some "" ∨
          p.genre = none ∨ p.genre = some "" ∨ p.published_year = none ∨
          p.published_year = some 0 ∨ p.isbn = none ∨ p.isbn = some "") →
        (updateBook raw c db).1.status = 400 ∧ (updateBook raw c db).2 = db) ∧
    (∀ k : Int, Atoi c.id = some k → (∀ b ∈ db.rows, (b.ID : Int) ≠ k) →
        (updateBook raw c db).1.status = 404 ∧
          (updateBook raw c db).1.written = some (.error "Book not found") ∧
          (updateBook raw c db).2 = db) ∧
    ((updateBook raw c db).1.status = 200 →
      ∃ (p : Payload) (t a g i : String) (y : Int), c.Body = .object p ∧
        p.title = some t ∧ t ≠ "" ∧ p.author = some a ∧ a ≠ "" ∧ p.genre = some g ∧ g ≠ "" ∧
        p.published_year = some y ∧ y ≠ 0 ∧ p.isbn = some i ∧ i ≠ "") := by
  refine ⟨?_, ?_, ?_⟩
  · rintro k p hk ⟨b, hb, hbk⟩ hbody hmiss
    obtain ⟨err, herr⟩ := ShouldBindJSON_missing p hmiss
    rw [← hbody] at herr
    obtain ⟨r, -, -, h⟩ := First_key_found raw db c.id k b hk hb hbk
    rw [updateBook_bad_body raw c db db r err h herr]
    exact ⟨rfl, rfl⟩
  · intro k hk habs
    obtain ⟨e, he⟩ := First_key_absent raw db c.id k hk habs
    rw [updateBook_not_found raw c db db e he]
    exact ⟨rfl, rfl, rfl⟩
  · intro hs
    rcases hf : First raw db c.id with ⟨res, db1⟩
    cases res with
    | error e =>
      rw [updateBook_not_found raw c db db1 e hf] at hs
      simp [Context.JSON] at hs
    | ok b =>
      cases hb : ShouldBindJSON c.Body with
      | error err =>
        rw [updateBook_bad_body raw c db db1 b err hf hb] at hs
        simp [Context.JSON] at hs
      | ok u =>
        obtain ⟨p, hp, -, -⟩ := ShouldBindJSON_ok _ _ hb
        rw [hp] at hb
        obtain ⟨⟨t1, t2⟩, ⟨a1, a2⟩, ⟨g1, g2⟩, ⟨y1, y2⟩, ⟨i1, i2⟩, -, -⟩ :=
          ShouldBindJSON_object p u hb
        exact ⟨p, u.Title, u.Author, u.Genre, u.ISBN, u.PublishedYear, hp, t1, t2, a1, a2, g1, g2,
          y1, y2, i1, i2⟩

/-! ## CORS middleware and routing -/

/-- The three headers the middleware sets. -/
theorem setupCORS_headers (c : Context) :
    (((c.Set "Access-Control-Allow-Origin" "*").Set "Access-Control-Allow-Methods"
        "GET, POST, PUT, DELETE").Set "Access-Control-Allow-Headers" "Content-Type").header =
      c.header.filter (fun kv => kv.1 ≠ "Access-Control-Allow-Origin" ∧
          kv.1 ≠ "Access-Control-Allow-Methods" ∧ kv.1 ≠ "Access-Control-Allow-Headers") ++
        [("Access-Control-Allow-Origin", "*"),
          ("Access-Control-Allow-Methods", "GET, POST, PUT, DELETE"),
          ("Access-Control-Allow-Headers", "Content-Type")] := by
  simp [Context.Set, List.filter_filter, and_comm, and_assoc, and_left_comm]

/-- A route is registered only for the methods GET, POST, PUT and DELETE. -/
theorem route_method (raw : Engine) (method path : String) (h : HandlerFunc) (id : String)
    (hr : route raw method path = some (h, id)) :
    method ∈ ["GET", "POST", "PUT", "DELETE"] := by
  by_cases hG : method = "GET"
  · simp [hG]
  by_cases hP : method = "POST"
  · simp [hP]
  by_cases hU : method = "PUT"
  · simp [hU]
  by_cases hD : method = "DELETE"
  · simp [hD]
  exfalso
  unfold route at hr
  simp only [hG, hP, hU, hD, if_false] at hr
  split_ifs at hr
  split at hr <;> cases hr

/-- C7. A request whose method is OPTIONS, on any path, in any store state, is answered by
the middleware alone: status 200, no body, exactly the three Access-Control-Allow headers,
the store unchanged, and the same result whatever handler would follow.  For any other
method the middleware sets the same three headers and hands the context to the handler that
follows, which for a matched route is the route handler. -/
theorem options_preflight (raw : Engine) (unrouted : Request → Store → Context × Store)
    (req : Request) (db : Store) :
    (req.Method = "OPTIONS" →
      serve raw unrouted req db =
        ({ Method := "OPTIONS", id := "", Body := req.Body, status := 200,
           header := [("Access-Control-Allow-Origin", "*"),
             ("Access-Control-Allow-Methods", "GET, POST, PUT, DELETE"),
             ("Access-Control-Allow-Headers", "Content-Type")],
           written := none, aborted := true }, db)) ∧
    (∀ (next : HandlerFunc) (c : Context), c.Method = "OPTIONS" →
      setupCORS next c db =
        (((((c.Set "Access-Control-Allow-Origin" "*").Set "Access-Control-Allow-Methods"
          "GET, POST, PUT, DELETE").Set "Access-Control-Allow-Headers"
          "Content-Type").AbortWithStatus 200), db)) ∧
    (∀ (next : HandlerFunc) (c : Context), c.Method ≠ "OPTIONS" →
      setupCORS next c db =
        next (((c.Set "Access-Control-Allow-Origin" "*").Set "Access-Control-Allow-Methods"
          "GET, POST, PUT, DELETE").Set "Access-Control-Allow-Headers" "Content-Type") db) ∧
    (∀ (h : HandlerFunc) (id : String), route raw req.Method req.Path = some (h, id) →
      serve raw unrouted req db =
        h { Method := req.Method, id := id, Body := req.Body, status := 200,
            header := [("Access-Control-Allow-Origin", "*"),
              ("Access-Control-Allow-Methods", "GET, POST, PUT, DELETE"),
              ("Access-Control-Allow-Headers", "Content-Type")],
            written := none, aborted := false } db) := by
  refine ⟨?_, ?_, ?_, ?_⟩
  · intro hm
    have hnot : ¬ req.Method ∈ ["GET", "POST", "PUT", "DELETE"] := by
      rw [hm]
      decide
    simp only [serve, if_neg hnot, setupCORS, Context.Set, newContext, Context.AbortWithStatus,
      hm, if_true]
    simp
  · intro next c hm
    simp only [setupCORS, Context.Set, hm, if_true]
  · intro next c hm
    simp only [setupCORS, Context.Set, hm, if_false]
  · intro h id hr
    have hin := route_method raw req.Method req.Path h id hr
    have hne : req.Method ≠ "OPTIONS" := by
      intro hm
      rw [hm] at hin
      revert hin
      decide
    simp only [serve, if_pos hin, hr, setupCORS, Context.Set, newContext, hne, if_false]
    simp

/-- Instance of `updateBook_required_binding`: an update of book 2 with an empty isbn. -/
theorem updateBook_required_binding_witness :
    (updateBook rejectRaw (request "PUT" "2" (.object { dunePayload with isbn := some "" }))
        twoStore).1.status = 400 ∧
      (updateBook rejectRaw (request "PUT" "2" (.object { dunePayload with isbn := some "" }))
        twoStore).2 = twoStore :=
  (updateBook_required_binding rejectRaw
    (request "PUT" "2" (.object { dunePayload with isbn := some "" })) twoStore).1 2
    { dunePayload with isbn := some "" } (by decide) ⟨emma, by decide, by decide⟩ rfl
    (by decide)

/-- Instance of `options_preflight`: a preflight request for `/books/1`. -/
theorem options_preflight_witness :
    (serve rejectRaw (fun r db => noRoute (newContext r "") db)
        { Method := "OPTIONS", Path := "/books/1", Body := .malformed "EOF" } oneStore).1.status
        = 200 ∧
      (serve rejectRaw (fun r db => noRoute (newContext r "") db)
        { Method := "OPTIONS", Path := "/books/1", Body := .malformed "EOF" } oneStore).2
        = oneStore :=
  have h := (options_preflight rejectRaw (fun r db => noRoute (newContext r "") db)
    { Method := "OPTIONS", Path := "/books/1", Body := .malformed "EOF" } oneStore).1 rfl
  ⟨congrArg (fun x => x.1.status) h, congrArg (fun x => x.2) h⟩

/-! ## Update: what is written -/

/-- With no id in the update struct and a model of non-zero id, `Updates` succeeds: the rows
of the model's id receive the non-zero fields. -/
theorem Updates_without_id (db : Store) (book upd : Book) (hid : upd.ID = 0)
    (hne : upd.Title ≠ "") (hb : book.ID ≠ 0) :
    Updates db book upd =
      { model := assign book upd
        store := { db with
          rows := db.rows.map (fun r => if r.ID = book.ID then assign r upd else r) }
        err := none } := by
  have hz : upd ≠ Book.zero := by
    intro h
    apply hne
    rw [h]
    rfl
  simp [Updates, hz, hb, hid]

/-- The lookup of a stored id in a table with distinct ids, by any numeric path parameter. -/
theorem getBookByID_numeric (raw : Engine) (c : Context) (db : Store) (k : Int)
    (hk : Atoi c.id = some k) :
    ((∀ b ∈ db.rows, (b.ID : Int) ≠ k) →
      getBookByID raw c db = (c.JSON 404 (.error "Book not found"), db)) ∧
    (∀ b ∈ db.rows, (b.ID : Int) = k → (db.rows.map Book.ID).Nodup →
      getBookByID raw c db = (c.JSON 200 (.book b), db)) := by
  constructor
  · intro h
    obtain ⟨e, he⟩ := First_key_absent raw db c.id k hk h
    exact getBookByID_not_found raw c db db e he
  · intro b hb hbk hnd
    exact getBookByID_found raw c db db b
      (First_key_present raw db c.id k b hk hb hbk (unique_of_nodup db.rows hnd b hb))

/-- C3 (as stated) fails: an update body that supplies availability alone, for a stored
book, is answered 400 and nothing is written. -/
theorem updateBook_availability_only_rejected :
    (updateBook rejectRaw (request "PUT" "1" (.object availabilityOnly)) oneStore).1.status = 400 ∧
      (updateBook rejectRaw (request "PUT" "1" (.object availabilityOnly)) oneStore).2 = oneStore := by
  decide

/-- C3 (amended). For a stored book `old`, found by a numeric id in a table of distinct ids,
and an update body without id: when the body supplies all five required fields with non-zero
values the answer is 200 with the updated book, the five fields of the stored book take the
supplied values, availability becomes true when supplied as true and is otherwise kept, the
id and all other rows are unchanged; when the body leaves out a required field or gives its
zero value the answer is 400 and the store is unchanged. -/
theorem updateBook_full_body (raw : Engine) (c : Context) (db : Store) (k : Int) (old : Book)
    (p : Payload) (hk : Atoi c.id = some k) (hold : old ∈ db.rows) (hid : (old.ID : Int) = k)
    (hz : old.ID ≠ 0) (hnd : (db.rows.map Book.ID).Nodup) (hbody : c.Body = .object p)
    (hnoid : p.id = none ∨ p.id = some 0) :
    (∀ (t a g i : String) (y : Int), p.title = some t → p.author = some a → p.genre = some g →
        p.published_year = some y → p.isbn = some i → t ≠ "" → a ≠ "" → g ≠ "" → i ≠ "" →
        y ≠ 0 → -(2 ^ 63 : Int) ≤ y → y ≤ (maxInt : Int) →
        (updateBook raw c db).1.status = 200 ∧
        (updateBook raw c db).1.written = some (.book
          { ID := old.ID, Title := t, Author := a, Genre := g, PublishedYear := y, ISBN := i,
            Availability := if p.availability = some true then true else old.Availability }) ∧
        (updateBook raw c db).2.rows = db.rows.map (fun r => if r = old then
          { ID := old.ID, Title := t, Author := a, Genre := g, PublishedYear := y, ISBN := i,
            Availability := if p.availability = some true then true else old.Availability }
          else r) ∧
        (updateBook raw c db).2.seq = db.seq) ∧
    ((p.title = none ∨ p.title = some "" ∨ p.author = none ∨ p.author = some "" ∨
        p.genre = none ∨ p.genre = some "" ∨ p.published_year = none ∨
        p.published_year = some 0 ∨ p.isbn = none ∨ p.isbn = some "") →
      (updateBook raw c db).1.status = 400 ∧ (updateBook raw c db).2 = db) := by
  have huniq := unique_of_nodup db.rows hnd old hold
  have hfirst := First_key_present raw db c.id k old hk hold hid huniq
  constructor
  · intro t a g i y ht ha hg hy hi t0 a0 g0 i0 y0 hlo hhi
    have hu : unmarshal p = .ok (Book.mk 0 t a g y i (p.availability.getD false)) := by
      unfold unmarshal
      have h1 : p.id.getD 0 = 0 := by
        rcases hnoid with h | h <;> simp [h]
      have h2 : ¬ (y < -(2 ^ 63 : Int) ∨ (maxInt : Int) < y) := by
        rintro (h | h) <;> omega
      rw [h1, ht, ha, hg, hy, hi]
      dsimp only [Option.getD]
      rw [if_neg (by simp), if_neg h2]
    have hv : validate (Book.mk 0 t a g y i (p.availability.getD false)) = [] := by
      rw [validate_eq_nil]
      exact ⟨t0, a0, g0, y0, i0⟩
    have hbind : ShouldBindJSON c.Body = .ok (Book.mk 0 t a g y i (p.availability.getD false)) := by
      rw [hbody]
      simp only [ShouldBindJSON, hu, hv]
    rw [updateBook_applied raw c db db old _ hfirst hbind,
      Updates_without_id db old _ rfl t0 hz]
    have hassign : ∀ r : Book, r.ID = old.ID →
        assign r (Book.mk 0 t a g y i (p.availability.getD false)) =
          { ID := old.ID, Title := t, Author := a, Genre := g, PublishedYear := y, ISBN := i,
            Availability := if p.availability = some true then true else r.Availability } := by
      intro r hr
      simp only [assign, if_true, if_neg t0, if_neg a0, if_neg g0, if_neg y0, if_neg i0, hr]
      congr 1
      cases hav : p.availability with
      | none => simp
      | some v => cases v <;> simp
    refine ⟨rfl, ?_, ?_, rfl⟩
    · simp only [Context.JSON]
      rw [hassign old rfl]
    · simp only
      apply List.map_congr_left
      intro r hr
      by_cases hro : r = old
      · subst hro
        simp only [if_true]
        exact hassign r rfl
      · have : r.ID ≠ old.ID := fun h => hro (huniq r hr h)
        simp only [if_neg this, if_neg hro]
  · intro hmiss
    obtain ⟨err, herr⟩ := ShouldBindJSON_missing p hmiss
    rw [← hbody] at herr
    rw [updateBook_bad_body raw c db db old err hfirst herr]
    exact ⟨rfl, rfl⟩

/-- Instance of `updateBook_full_body`: a full update of book 1 of two. -/
theorem updateBook_full_body_witness :
    (updateBook rejectRaw (request "PUT" "1" (.object (retitled 0))) twoStore).1.status = 200 ∧
      (updateBook rejectRaw (request "PUT" "1" (.object (retitled 0))) twoStore).2.rows =
        [messiah 1, emma] :=
  have h := (updateBook_full_body rejectRaw (request "PUT" "1" (.object (retitled 0))) twoStore
    1 dune (retitled 0) (by decide) (by decide) (by decide) (by decide) (by decide) rfl
    (Or.inr rfl)).1 "Dune Messiah" "Herbert" "SciFi" "456" 1969 rfl rfl rfl rfl rfl (by decide)
    (by decide) (by decide) (by decide) (by decide) (by decide) (by decide)
  ⟨h.1, h.2.2.1.trans (by decide)⟩

/-- C6. An update of book 1 with a full body that carries id 7 is answered 200 with id 7:
the stored row now has id 7, and book 1 is no longer found. -/
theorem updateBook_body_id_moves_row :
    (updateBook rejectRaw (request "PUT" "1" (.object (retitled 7))) oneStore).1.status = 200 ∧
      (updateBook rejectRaw (request "PUT" "1" (.object (retitled 7))) oneStore).1.written =
        some (.book (messiah 7)) ∧
      (updateBook rejectRaw (request "PUT" "1" (.object (retitled 7))) oneStore).2.rows =
        [messiah 7] ∧
      (getBookByID rejectRaw (request "GET" "1" (.malformed "EOF"))
        (updateBook rejectRaw (request "PUT" "1" (.object (retitled 7))) oneStore).2).1.status
        = 404 := by
  decide

/-- C8. An update of book 1 with a full body that carries id 2, the id of another stored
book, is answered 200 with a book of id 2 and the new title, while the statement fails on the
primary key and the table is unchanged: book 1 keeps its old fields and is what
`getBookByID` returns. -/
theorem updateBook_body_id_conflict :
    (updateBook rejectRaw (request "PUT" "1" (.object (retitled 2))) twoStore).1.status = 200 ∧
      (updateBook rejectRaw (request "PUT" "1" (.object (retitled 2))) twoStore).1.written =
        some (.book (messiah 2)) ∧
      (updateBook rejectRaw (request "PUT" "1" (.object (retitled 2))) twoStore).2 = twoStore ∧
      (getBookByID rejectRaw (request "GET" "1" (.malformed "EOF"))
        (updateBook rejectRaw (request "PUT" "1" (.object (retitled 2))) twoStore).2).1.written
        = some (.book dune) := by
  decide

/-- C5. A path parameter that is neither empty nor accepted by `strconv.Atoi` is no primary
key value; it reaches the SQL engine as a raw condition, and the row the engine returns for
it is answered with status 200. -/
theorem getBookByID_raw_condition (raw : Engine) (c : Context) (db db1 : Store) (b : Book)
    (hnum : Atoi c.id = none) (hne : c.id ≠ "") (hraw : raw c.id db = (.ok b, db1)) :
    (getBookByID raw c db).1.status = 200 ∧
      (getBookByID raw c db).1.written = some (.book b) ∧ (getBookByID raw c db).2 = db1 := by
  have hfirst : First raw db c.id = (.ok b, db1) := by
    simp only [First, hnum, if_neg hne, hraw]
  rw [getBookByID_found raw c db db1 b hfirst]
  exact ⟨rfl, rfl, rfl⟩

/-- Instance of `getBookByID_raw_condition`: the path parameter `1=1`. -/
theorem getBookByID_raw_condition_witness :
    (getBookByID tautologyRaw (request "GET" "1=1" (.malformed "EOF")) oneStore).1.status = 200 ∧
      (getBookByID tautologyRaw (request "GET" "1=1" (.malformed "EOF")) oneStore).1.written =
        some (.book dune) :=
  have h := getBookByID_raw_condition tautologyRaw (request "GET" "1=1" (.malformed "EOF"))
    oneStore oneStore dune (by decide) (by decide) rfl
  ⟨h.1, h.2.1⟩

/-- C10. A path parameter that is neither empty nor accepted by `strconv.Atoi` is the id of
no stored book, yet `updateBook` does not answer 404 for it: the string reaches the SQL
engine as a raw condition, and when the engine returns a row and the body binds, the answer
is 200 with that row updated and the store is the one `Updates` leaves. -/
theorem updateBook_raw_condition (raw : Engine) (c : Context) (db db1 : Store) (b u : Book)
    (hnum : Atoi c.id = none) (hne : c.id ≠ "") (hraw : raw c.id db = (.ok b, db1))
    (hbind : ShouldBindJSON c.Body = .ok u) :
    (updateBook raw c db).1.status = 200 ∧
      (updateBook raw c db).1.written = some (.book (Updates db1 b u).model) ∧
      (updateBook raw c db).2 = (Updates db1 b u).store := by
  have hfirst : First raw db c.id = (.ok b, db1) := by
    simp only [First, hnum, if_neg hne, hraw]
  rw [updateBook_applied raw c db db1 b u hfirst hbind]
  exact ⟨rfl, rfl, rfl⟩

/-- Instance of `updateBook_raw_condition`: the path parameter `1=1` with a full body
overwrites the book of least id. -/
theorem updateBook_raw_condition_witness :
    (updateBook tautologyRaw (request "PUT" "1=1" (.object (retitled 0))) twoStore).1.status
        = 200 ∧
      (updateBook tautologyRaw (request "PUT" "1=1" (.object (retitled 0))) twoStore).2.rows =
        [messiah 1, emma] :=
  have h := updateBook_raw_condition tautologyRaw
    (request "PUT" "1=1" (.object (retitled 0))) twoStore twoStore dune
    (messiah 0) (by decide) (by decide) rfl rfl
  ⟨h.1, (congrArg Store.rows h.2.2).trans (by decide)⟩

/-- An update whose body carries an id above `maxInt` moves the row to a negative rowid: the
answer is 200 with the id of the body, and afterwards the row is found under no id and the
list of books fails to load. -/
theorem updateBook_body_id_wraps :
    (updateBook rejectRaw (request "PUT" "1" (.object (retitled (2 ^ 63)))) oneStore).1.written =
        some (.book (messiah (2 ^ 63))) ∧
      (updateBook rejectRaw (request "PUT" "1" (.object (retitled (2 ^ 63)))) oneStore).2.rows =
        [messiah (2 ^ 63)] ∧
      (getBookByID rejectRaw (request "GET" "-9223372036854775808" (.malformed "EOF"))
        { rows := [messiah (2 ^ 63)], seq := 1 }).1.status = 404 ∧
      (getBooks (request "GET" "" (.malformed "EOF"))
        { rows := [messiah (2 ^ 63)], seq := 1 }).1.status = 500 := by
  decide

end BackLib
